import Mathlib

/-!
Verification of the i18n translation resolver of this repository
(`src/src/i18n/utils.ts`).

The resolver is

  const ui = { en: en, 'zh-cn': zhCn, cs: cs };
  export function useTranslations(lang: string) {
    return function t(key: string) {
      return ui[lang][key] || ui[config.lang][key];
    };
  }
  export const t = useTranslations(config.lang);

We embed the JavaScript semantics of this body faithfully:
- a plain object literal is an association list of own properties; reading an
  absent own property yields `undefined` (inherited `Object.prototype`
  members are disregarded, as the dictionaries are plain data objects);
- reading a property of `undefined` (here: `ui[lang]` when `lang` is not a
  registry key) throws a `TypeError`, modelled as `Except.error`;
- `a || b` yields `a` when `a` is truthy and `b` otherwise; the only falsy
  values a dictionary lookup can produce are `undefined` and the empty
  string.

The dictionary modules `en.ts`, `zhCn.ts`, `cs.ts` and the configuration
module `consts.ts` are not part of the sources; the dictionaries are kept as
parameters and the configuration is modelled from the spec.
-/

deriving instance DecidableEq for Except

namespace I18n

/-- A JavaScript value as produced by a locale lookup: `undefined` or a
string. -/
inductive JsValue where
  | undef : JsValue
  | str : String → JsValue
deriving DecidableEq, Repr

/-- A Locale Dictionary: the own properties of a plain object mapping string
keys to string values. -/
abbrev Dict := List (String × String)

/-- Own-property access on a plain JavaScript object literal: the first
binding of the key, `none` when the key is absent. -/
def objGet {α : Type} : List (String × α) → String → Option α
  | [], _ => none
  | (k, v) :: rest, key => if k == key then some v else objGet rest key

/-- Reading `d[key]` on a Locale Dictionary: an absent key yields
`undefined`. -/
def dictGet (d : Dict) (key : String) : JsValue :=
  match objGet d key with
  | some s => JsValue.str s
  | none => JsValue.undef

/-- JavaScript truthiness restricted to the values a lookup can produce:
`undefined` and the empty string are falsy, every other string is truthy. -/
def truthy : JsValue → Bool
  | JsValue.undef => false
  | JsValue.str s => s != ""

/-- The site configuration consumed by the resolver (`config.lang`). -/
structure Config where
  lang : String
deriving DecidableEq, Repr

/-- Modelled from the spec: `src/consts.ts` is not among the sources. The
spec fixes the Default Language of the concrete scenario to `en` and requires
it to be a key of the Locale Registry. -/
def config : Config := ⟨"en"⟩

/-- The Locale Registry `ui` of `src/src/i18n/utils.ts`: a plain object
literal with exactly the keys `en`, `zh-cn` and `cs`. The three dictionary
modules are not among the sources, so their contents are parameters. -/
def ui (en zhCn cs : Dict) : List (String × Dict) :=
  [("en", en), ("zh-cn", zhCn), ("cs", cs)]

/-- The message of the `TypeError` thrown when `ui[lang]` is `undefined` and
a property of it is read. -/
def typeErrorMsg : String := "TypeError: cannot read properties of undefined"

/-- `useTranslations(lang)` returns `t(key) = ui[lang][key] || ui[config.lang][key]`.
`ui[lang]` is read first; when `lang` is not a registry key the read
`ui[lang][key]` throws. When the first lookup is falsy the fallback
`ui[config.lang][key]` is read, which throws in turn when `config.lang` is
not a registry key. -/
def useTranslations (en zhCn cs : Dict) (lang : String) : String → Except String JsValue :=
  fun key =>
    match objGet (ui en zhCn cs) lang with
    | none => Except.error typeErrorMsg
    | some d =>
      let v := dictGet d key
      if truthy v then Except.ok v
      else
        match objGet (ui en zhCn cs) config.lang with
        | none => Except.error typeErrorMsg
        | some dd => Except.ok (dictGet dd key)

/-- The pre-bound process-wide translator `t = useTranslations(config.lang)`. -/
def t (en zhCn cs : Dict) : String → Except String JsValue :=
  useTranslations en zhCn cs config.lang

/-- The mutable-world view used for the frame and purity claims: the
process-wide Locale Registry together with the configured default language. -/
structure ProgState where
  registry : List (String × Dict)
  configLang : String
deriving DecidableEq, Repr

/-- The body of `t` as an explicit state-passing computation. Every step of
the source body is a property read on plain data objects; a read returns the
state it was given, since no assignment occurs anywhere in the body. -/
def tRun (σ : ProgState) (lang key : String) : Except String JsValue × ProgState :=
  match objGet σ.registry lang with
  | none => (Except.error typeErrorMsg, σ)
  | some d =>
    if truthy (dictGet d key) then (Except.ok (dictGet d key), σ)
    else
      match objGet σ.registry σ.configLang with
      | none => (Except.error typeErrorMsg, σ)
      | some dd => (Except.ok (dictGet dd key), σ)

/-- Modelled from the spec: the English dictionary of the concrete scenario,
`{greeting: "Hello"}`. -/
def scenarioEn : Dict := [("greeting", "Hello")]

/-- Modelled from the spec: the Chinese dictionary of the concrete scenario,
`{greeting: "你好"}`. -/
def scenarioZhCn : Dict := [("greeting", "你好")]

/-- Modelled from the spec: the scenario gives no Czech entries. -/
def scenarioCs : Dict := []

/-- A dictionary whose sole entry has the empty string as value, exercising
the falsy-value branch of `||`. -/
def emptyValueDict : Dict := [("greeting", "")]

/-- An English dictionary that additionally defines `farewell`. -/
def scenarioEnFull : Dict := [("greeting", "Hello"), ("farewell", "Bye")]

theorem objGet_ui_en (en zhCn cs : Dict) : objGet (ui en zhCn cs) "en" = some en := by
  simp [ui, objGet]

theorem objGet_ui_zhCn (en zhCn cs : Dict) : objGet (ui en zhCn cs) "zh-cn" = some zhCn := by
  simp [ui, objGet]

theorem objGet_ui_cs (en zhCn cs : Dict) : objGet (ui en zhCn cs) "cs" = some cs := by
  simp [ui, objGet]

theorem objGet_ui_default (en zhCn cs : Dict) : objGet (ui en zhCn cs) config.lang = some en := by
  simp [config, objGet_ui_en]

theorem objGet_ui_none (en zhCn cs : Dict) (lang : String)
    (h1 : lang ≠ "en") (h2 : lang ≠ "zh-cn") (h3 : lang ≠ "cs") :
    objGet (ui en zhCn cs) lang = none := by
  simp [ui, objGet, Ne.symm h1, Ne.symm h2, Ne.symm h3]

theorem useTranslations_of_objGet (en zhCn cs : Dict) (lang key : String) (d : Dict)
    (h : objGet (ui en zhCn cs) lang = some d) :
    useTranslations en zhCn cs lang key =
      (if truthy (dictGet d key) then Except.ok (dictGet d key)
       else Except.ok (dictGet en key)) := by
  simp [useTranslations, h, config, objGet_ui_en]

theorem useTranslations_ok_of_objGet (en zhCn cs : Dict) (lang key : String) (d : Dict)
    (h : objGet (ui en zhCn cs) lang = some d) :
    useTranslations en zhCn cs lang key =
      Except.ok (if truthy (dictGet d key) then dictGet d key else dictGet en key) := by
  rw [useTranslations_of_objGet en zhCn cs lang key d h]
  by_cases ht : truthy (dictGet d key) <;> simp [ht]

theorem tRun_snd (σ : ProgState) (lang key : String) : (tRun σ lang key).2 = σ := by
  unfold tRun
  split
  · rfl
  · split
    · rfl
    · split
      · rfl
      · rfl

theorem tRun_fst_eq_useTranslations (en zhCn cs : Dict) (lang key : String) :
    (tRun ⟨ui en zhCn cs, config.lang⟩ lang key).1 = useTranslations en zhCn cs lang key := by
  simp only [tRun, useTranslations]
  rcases h : objGet (ui en zhCn cs) lang with _ | d
  · simp [h]
  · simp only [h]
    by_cases ht : truthy (dictGet d key)
    · simp [ht]
    · simp only [ht, Bool.false_eq_true, if_false]
      rcases h2 : objGet (ui en zhCn cs) config.lang with _ | dd <;> simp [h2]

/-- Claim C1 counterexample: `useTranslations("fr")("greeting")` does not
behave like `useTranslations(defaultLanguage)("greeting")`: the former throws
a TypeError (`ui["fr"]` is undefined) while the latter returns `"Hello"`. -/
theorem unknown_lang_differs_from_default_cex :
    useTranslations scenarioEn scenarioZhCn scenarioCs "fr" "greeting" ≠
      useTranslations scenarioEn scenarioZhCn scenarioCs "en" "greeting" := by
  intro h
  have h1 : useTranslations scenarioEn scenarioZhCn scenarioCs "fr" "greeting"
      = Except.error typeErrorMsg := by decide
  have h2 : useTranslations scenarioEn scenarioZhCn scenarioCs "en" "greeting"
      = Except.ok (JsValue.str "Hello") := by decide
  rw [h1, h2] at h
  exact Except.noConfusion h

/-- Claim C1 (amended): for every `language` that is not a key of the Locale
Registry, the lookup produced by `useTranslations(language)` throws a
TypeError on every key (reading a property of `ui[language] = undefined`)
instead of falling back to the default language. -/
theorem useTranslations_unknown_lang_throws (en zhCn cs : Dict) (lang key : String)
    (h1 : lang ≠ "en") (h2 : lang ≠ "zh-cn") (h3 : lang ≠ "cs") :
    useTranslations en zhCn cs lang key = Except.error typeErrorMsg := by
  simp [useTranslations, objGet_ui_none en zhCn cs lang h1 h2 h3]

/-- Witness for the amended claim C1 at language `fr` and key `greeting`. -/
theorem useTranslations_unknown_lang_throws_witness :
    useTranslations scenarioEn scenarioZhCn scenarioCs "fr" "greeting"
      = Except.error typeErrorMsg :=
  useTranslations_unknown_lang_throws scenarioEn scenarioZhCn scenarioCs "fr" "greeting"
    (by decide) (by decide) (by decide)

/-- Claim C2 counterexample: the lookup can raise an exception: at the
unregistered language `de` it evaluates `undefined["greeting"]` and throws a
TypeError instead of returning a value. -/
theorem resolver_can_throw_cex :
    useTranslations scenarioEn scenarioZhCn scenarioCs "de" "greeting"
      = Except.error typeErrorMsg := by
  decide

/-- Claim C2 (amended): for every `language` that is a key of the Locale
Registry and every string `key`, the lookup produced by
`useTranslations(language)` returns a value (string or undefined) and never
raises; for a `language` outside the registry it throws a TypeError. -/
theorem known_lang_no_exception (en zhCn cs : Dict) (lang key : String)
    (h : lang = "en" ∨ lang = "zh-cn" ∨ lang = "cs") :
    ∃ v : JsValue, useTranslations en zhCn cs lang key = Except.ok v := by
  rcases h with h | h | h <;> subst h
  · exact ⟨_, useTranslations_ok_of_objGet en zhCn cs "en" key en (objGet_ui_en en zhCn cs)⟩
  · exact ⟨_, useTranslations_ok_of_objGet en zhCn cs "zh-cn" key zhCn (objGet_ui_zhCn en zhCn cs)⟩
  · exact ⟨_, useTranslations_ok_of_objGet en zhCn cs "cs" key cs (objGet_ui_cs en zhCn cs)⟩

/-- Witness for the amended claim C2 at language `zh-cn` and key `greeting`. -/
theorem known_lang_no_exception_witness :
    ∃ v : JsValue, useTranslations scenarioEn scenarioZhCn scenarioCs "zh-cn" "greeting"
      = Except.ok v :=
  known_lang_no_exception scenarioEn scenarioZhCn scenarioCs "zh-cn" "greeting"
    (Or.inr (Or.inl rfl))

/-- Claim C3 counterexample: `zh-cn`'s dictionary maps `greeting` to the
empty string, yet the lookup returns the default language's `"Hello"`, not
`zh-cn`'s own value `""`: the `||` fallback fires on falsy values, so the
requested language does not always take precedence. -/
theorem empty_value_overrides_requested_cex :
    objGet emptyValueDict "greeting" = some "" ∧
      useTranslations scenarioEn emptyValueDict scenarioCs "zh-cn" "greeting"
        = Except.ok (JsValue.str "Hello") := by
  exact ⟨by decide, by decide⟩

/-- Claim C3 (amended): for every `language` that is a key of the Locale
Registry and every `key` whose value in that language's dictionary is a
non-empty (truthy) string, the lookup returns that language's value, not the
default's. -/
theorem requested_lang_truthy_value_precedence (en zhCn cs : Dict) (lang key : String)
    (d : Dict) (v : String)
    (hlang : objGet (ui en zhCn cs) lang = some d)
    (hkey : objGet d key = some v) (hv : v ≠ "") :
    useTranslations en zhCn cs lang key = Except.ok (JsValue.str v) := by
  rw [useTranslations_of_objGet en zhCn cs lang key d hlang]
  have h1 : dictGet d key = JsValue.str v := by simp [dictGet, hkey]
  rw [h1, if_pos (by simp [truthy, hv])]

/-- Witness for the amended claim C3: `translate("zh-cn", "greeting")` is
`"你好"`, the requested language's value. -/
theorem requested_lang_truthy_value_precedence_witness :
    useTranslations scenarioEn scenarioZhCn scenarioCs "zh-cn" "greeting"
      = Except.ok (JsValue.str "你好") :=
  requested_lang_truthy_value_precedence scenarioEn scenarioZhCn scenarioCs "zh-cn" "greeting"
    scenarioZhCn "你好" (by decide) (by decide) (by decide)

/-- Claim C4: for every `key` present in the Default Language's dictionary
and every `language` that is a key of the registry, if `key` is absent from
`language`'s dictionary then the lookup for `language` agrees with the lookup
for the default language. -/
theorem missing_key_falls_back_to_default (en zhCn cs : Dict) (lang key : String)
    (d : Dict) (w : String)
    (hlang : objGet (ui en zhCn cs) lang = some d)
    (habsent : objGet d key = none)
    ( _hdefault : objGet en key = some w) :
    useTranslations en zhCn cs lang key = useTranslations en zhCn cs config.lang key := by
  rw [useTranslations_of_objGet en zhCn cs lang key d hlang]
  rw [useTranslations_ok_of_objGet en zhCn cs config.lang key en (objGet_ui_default en zhCn cs)]
  have h1 : dictGet d key = JsValue.undef := by simp [dictGet, habsent]
  rw [h1, if_neg (by decide)]
  by_cases ht : truthy (dictGet en key)
  · rw [if_pos ht]
  · rw [if_neg ht]

/-- Witness for claim C4: `farewell` is in the English dictionary but not in
the Chinese one, and the `zh-cn` lookup agrees with the default lookup. -/
theorem missing_key_falls_back_to_default_witness :
    useTranslations scenarioEnFull scenarioZhCn scenarioCs "zh-cn" "farewell"
      = useTranslations scenarioEnFull scenarioZhCn scenarioCs config.lang "farewell" :=
  missing_key_falls_back_to_default scenarioEnFull scenarioZhCn scenarioCs "zh-cn" "farewell"
    scenarioZhCn "Bye" (by decide) (by decide) (by decide)

/-- Claim C5 counterexample: `farewell` is absent from every dictionary, yet
`useTranslations("fr")("farewell")` does not return undefined: it throws a
TypeError, so the claimed behavior fails for languages outside the registry. -/
theorem absent_key_unknown_lang_throws_cex :
    useTranslations scenarioEn scenarioZhCn scenarioCs "fr" "farewell"
      = Except.error typeErrorMsg := by
  decide

/-- Claim C5 (amended): for every `key` absent from every Locale Dictionary
and every `language` that is a key of the registry, the lookup returns
undefined; for a `language` outside the registry it throws a TypeError. -/
theorem absent_key_known_lang_undefined (en zhCn cs : Dict) (lang key : String)
    (h : lang = "en" ∨ lang = "zh-cn" ∨ lang = "cs")
    (hen : objGet en key = none) (hzh : objGet zhCn key = none)
    (hcs : objGet cs key = none) :
    useTranslations en zhCn cs lang key = Except.ok JsValue.undef := by
  have hd : ∃ d : Dict, objGet (ui en zhCn cs) lang = some d ∧ objGet d key = none := by
    rcases h with h | h | h <;> subst h
    · exact ⟨en, objGet_ui_en en zhCn cs, hen⟩
    · exact ⟨zhCn, objGet_ui_zhCn en zhCn cs, hzh⟩
    · exact ⟨cs, objGet_ui_cs en zhCn cs, hcs⟩
  rcases hd with ⟨d, hd, hdk⟩
  rw [useTranslations_of_objGet en zhCn cs lang key d hd]
  have h1 : dictGet d key = JsValue.undef := by simp [dictGet, hdk]
  have h2 : dictGet en key = JsValue.undef := by simp [dictGet, hen]
  rw [h1, if_neg (by decide), h2]

/-- Witness for the amended claim C5: `translate("zh-cn", "farewell")` is
undefined, since `farewell` is in no dictionary of the scenario. -/
theorem absent_key_known_lang_undefined_witness :
    useTranslations scenarioEn scenarioZhCn scenarioCs "zh-cn" "farewell"
      = Except.ok JsValue.undef :=
  absent_key_known_lang_undefined scenarioEn scenarioZhCn scenarioCs "zh-cn" "farewell"
    (Or.inr (Or.inl rfl)) (by decide) (by decide) (by decide)

/-- Claim C6: the resolver is deterministic: running the lookup a second
time, from the state left by a first run with the same arguments, yields the
same result (pure function, no hidden state mutation). -/
theorem t_repeated_calls_agree (σ : ProgState) (lang key : String) :
    (tRun ((tRun σ lang key).2) lang key).1 = (tRun σ lang key).1 := by
  rw [tRun_snd]

/-- Claim C7: the lookup has no side effects: the Locale Registry and the
configured default language are exactly the same after a call as before it. -/
theorem t_no_side_effects (σ : ProgState) (lang key : String) :
    ((tRun σ lang key).2).registry = σ.registry ∧
      ((tRun σ lang key).2).configLang = σ.configLang := by
  rw [tRun_snd]
  exact ⟨rfl, rfl⟩

/-- Claim C8: the configured Default Language (`config.lang = "en"`) is a key
of the Locale Registry `ui`, so the fallback lookup `ui[config.lang]` is
always defined (it is the English dictionary). -/
theorem default_lang_in_registry (en zhCn cs : Dict) :
    objGet (ui en zhCn cs) config.lang = some en :=
  objGet_ui_default en zhCn cs

/-- Claim C9: when a registered language's dictionary maps `key` to the empty
(falsy) string, the lookup returns the Default Language's value for `key`,
because the `||` operator selects the fallback on the looked-up value rather
than on key membership. -/
theorem falsy_value_falls_back_to_default (en zhCn cs : Dict) (lang key : String) (d : Dict)
    (hlang : objGet (ui en zhCn cs) lang = some d)
    (hkey : objGet d key = some "") :
    useTranslations en zhCn cs lang key = Except.ok (dictGet en key) := by
  rw [useTranslations_of_objGet en zhCn cs lang key d hlang]
  have h1 : dictGet d key = JsValue.str "" := by simp [dictGet, hkey]
  rw [h1, if_neg (by decide)]

/-- Witness for claim C9: with `zh-cn` mapping `greeting` to `""`, the lookup
returns the English dictionary's value for `greeting`. -/
theorem falsy_value_falls_back_to_default_witness :
    useTranslations scenarioEn emptyValueDict scenarioCs "zh-cn" "greeting"
      = Except.ok (dictGet scenarioEn "greeting") :=
  falsy_value_falls_back_to_default scenarioEn emptyValueDict scenarioCs "zh-cn" "greeting"
    emptyValueDict (by decide) (by decide)

/-- Claim C10: for every `language` that is a key of the Locale Registry
(the configured default being a key as well, by `objGet_ui_default`), the
lookup returns without exception: the language's value when truthy, else the
default language's value, else undefined (`dictGet` yields undefined for an
absent key). -/
theorem known_lang_total_resolution (en zhCn cs : Dict) (lang key : String)
    (h : lang = "en" ∨ lang = "zh-cn" ∨ lang = "cs") :
    ∃ d : Dict, objGet (ui en zhCn cs) lang = some d ∧
      useTranslations en zhCn cs lang key =
        Except.ok (if truthy (dictGet d key) then dictGet d key else dictGet en key) := by
  rcases h with h | h | h <;> subst h
  · exact ⟨en, objGet_ui_en en zhCn cs,
      useTranslations_ok_of_objGet en zhCn cs "en" key en (objGet_ui_en en zhCn cs)⟩
  · exact ⟨zhCn, objGet_ui_zhCn en zhCn cs,
      useTranslations_ok_of_objGet en zhCn cs "zh-cn" key zhCn (objGet_ui_zhCn en zhCn cs)⟩
  · exact ⟨cs, objGet_ui_cs en zhCn cs,
      useTranslations_ok_of_objGet en zhCn cs "cs" key cs (objGet_ui_cs en zhCn cs)⟩

/-- Witness for claim C10 at the registered language `cs` and key
`greeting`. -/
theorem known_lang_total_resolution_witness :
    ∃ d : Dict, objGet (ui scenarioEn scenarioZhCn scenarioCs) "cs" = some d ∧
      useTranslations scenarioEn scenarioZhCn scenarioCs "cs" "greeting" =
        Except.ok (if truthy (dictGet d "greeting") then dictGet d "greeting"
          else dictGet scenarioEn "greeting") :=
  known_lang_total_resolution scenarioEn scenarioZhCn scenarioCs "cs" "greeting"
    (Or.inr (Or.inr rfl))

end I18n
